import Mathlib

/-!
Verification of the yc-pipiniere-v2 repository against its specification.

The repository consists of a Next.js frontend with a login form and a signup
form (src/frontend/src/app/(auth)/login/page.tsx) and a Laravel bootstrap
file registering authentication middleware (src/backend/bootstrap/app.php).

We embed the client-side validation (the zod schemas `loginSchema` and
`signupSchema` and the `validateForm` functions), the submit handlers
(`handleSubmit` of each form, modelled as the sequence of observable events
they emit: state updates, the HTTP POST, and the redirect), and the
middleware alias and priority registration of the backend bootstrap.
-/

/-! ## The zod string validators

`z.string().email()` in zod v3 validates against the regex
`^(?!\.)(?!.*\.\.)([A-Z0-9_'+\-\.]*)[A-Z0-9_+\-]@([A-Z0-9][A-Z0-9\-]*\.)+[A-Z]{2,}$`
(case-insensitive).  We embed it structurally: the string splits at a single
`@` into a local part and a domain; the local part is a nonempty run of
allowed characters ending in a restricted character; the domain is one or
more labels followed by an alphabetic top-level domain of length at least 2;
the whole string does not start with a dot and contains no two consecutive
dots. -/

/-- Characters allowed in the local part of an email address:
`[A-Z0-9_'+\-\.]`, case-insensitive.  `Char.ofNat 39` is the apostrophe. -/
def localChar (c : Char) : Bool :=
  c.isAlpha || c.isDigit || c = '_' || c = Char.ofNat 39 || c = '+' || c = '-' || c = '.'

/-- Characters allowed as the final character of the local part:
`[A-Z0-9_+\-]`, case-insensitive. -/
def localEndChar (c : Char) : Bool :=
  c.isAlpha || c.isDigit || c = '_' || c = '+' || c = '-'

/-- First character of a domain label: `[A-Z0-9]`, case-insensitive. -/
def labelStartChar (c : Char) : Bool :=
  c.isAlpha || c.isDigit

/-- Subsequent characters of a domain label: `[A-Z0-9\-]`, case-insensitive. -/
def labelChar (c : Char) : Bool :=
  c.isAlpha || c.isDigit || c = '-'

/-- The local part matches `([A-Z0-9_'+\-\.]*)[A-Z0-9_+\-]`: a possibly empty
run of local characters followed by one restricted end character. -/
def localOk : List Char → Bool
  | [] => false
  | [c] => localEndChar c
  | c :: rest => localChar c && localOk rest

/-- A domain label matches `[A-Z0-9][A-Z0-9\-]*`. -/
def labelOk : List Char → Bool
  | [] => false
  | c :: rest => labelStartChar c && rest.all labelChar

/-- The top-level domain matches `[A-Z]{2,}`. -/
def tldOk (l : List Char) : Bool :=
  2 ≤ l.length && l.all Char.isAlpha

/-- The lookahead `(?!.*\.\.)`: no two consecutive dots anywhere. -/
def noDoubleDot : List Char → Bool
  | [] => true
  | [_] => true
  | a :: b :: rest => !(a = '.' && b = '.') && noDoubleDot (b :: rest)

/-- Split a character list at every occurrence of `c` (the separators are
dropped); always returns a nonempty list of pieces. -/
def splitOnChar (c : Char) : List Char → List (List Char)
  | [] => [[]]
  | a :: rest =>
    match splitOnChar c rest with
    | [] => [[]]
    | h :: t => if a = c then [] :: h :: t else (a :: h) :: t

/-- The domain matches `([A-Z0-9][A-Z0-9\-]*\.)+[A-Z]{2,}`: splitting at the
dots yields at least one label followed by the top-level domain. -/
def domainOk (d : List Char) : Bool :=
  match (splitOnChar '.' d).reverse with
  | [] => false
  | tld :: labelsRev => !labelsRev.isEmpty && labelsRev.all labelOk && tldOk tld

/-- The zod v3 email regex, embedded structurally.  The character classes
contain no `@`, so a match has exactly one `@`, splitting the string into a
local part and a domain. -/
def zodEmailCheck (s : String) : Bool :=
  let cs := s.data
  (match cs.head? with
   | some c => !(c = '.')
   | none => true)
  && noDoubleDot cs
  && (match splitOnChar '@' cs with
      | [l, d] => localOk l && domainOk d
      | _ => false)

/-! ## Validation issues and the `formErrors` map

`validateForm` (both forms) catches the `ZodError`, walks `err.errors` in
order and assigns `errors[path] = message` for each issue; a later issue on
the same path overwrites an earlier one.  We model the issue list and the
resulting per-field lookup. -/

/-- The message recorded for a field after `err.errors.forEach` assigns
`errors[path] = message`: the message of the last issue on that field. -/
def errorFor {F : Type} [DecidableEq F] : List (F × String) → F → Option String
  | [], _ => none
  | (p, m) :: rest, fld =>
    match errorFor rest fld with
    | some m2 => some m2
    | none => if p = fld then some m else none

/-! ## The login form -/

/-- The fields of `loginSchema`. -/
inductive LoginField : Type
  | email
  | password
  deriving DecidableEq, Repr

/-- The login form state (`LoginFormData`). -/
structure LoginFormData : Type where
  email : String
  password : String
  deriving DecidableEq, Repr

namespace LoginForm

/-- The issues produced by `loginSchema.parse` on the login form data, in
order: `email` must satisfy the zod email check, `password` must have length
at least 8. -/
def loginIssues (f : LoginFormData) : List (LoginField × String) :=
  (if zodEmailCheck f.email then []
   else [(LoginField.email, "Please enter a valid email address")])
  ++ (if f.password.length < 8 then
        [(LoginField.password, "Password must be at least 8 characters")]
      else [])

/-- `validateForm` of the login form: true exactly when `loginSchema.parse`
succeeds, i.e. when the issue list is empty. -/
def validateForm (f : LoginFormData) : Bool :=
  (loginIssues f).isEmpty

end LoginForm

/-! ## The signup form -/

/-- The two selectable roles of the signup form (`z.enum(["client", "employee"])`). -/
inductive Role : Type
  | client
  | employee
  deriving DecidableEq, Repr

/-- The fields of `signupSchema`. -/
inductive SignupField : Type
  | name
  | email
  | password
  | confirmPassword
  | role
  deriving DecidableEq, Repr

/-- The signup form state (`SignupFormData`). -/
structure SignupFormData : Type where
  name : String
  email : String
  password : String
  confirmPassword : String
  role : Role
  deriving DecidableEq, Repr

namespace SignupForm

/-- The issues produced by `signupSchema.parse` on the signup form data, in
order: the object fields `name` (length at least 2), `email` (zod email
check), `password` (length at least 8) — `confirmPassword` is an unchecked
string and `role` is already one of the two enum values — and then the
`refine` issue on path `confirmPassword` when the two passwords differ.  In
zod v3 a failing string check marks the parse dirty without aborting it, so
the refinement still runs when object fields are invalid. -/
def signupIssues (f : SignupFormData) : List (SignupField × String) :=
  (if f.name.length < 2 then
     [(SignupField.name, "Name must be at least 2 characters")]
   else [])
  ++ (if zodEmailCheck f.email then []
      else [(SignupField.email, "Please enter a valid email address")])
  ++ (if f.password.length < 8 then
        [(SignupField.password, "Password must be at least 8 characters")]
      else [])
  ++ (if f.password = f.confirmPassword then []
      else [(SignupField.confirmPassword, "Passwords do not match")])

/-- `validateForm` of the signup form: true exactly when
`signupSchema.parse` succeeds, i.e. when the issue list is empty. -/
def validateForm (f : SignupFormData) : Bool :=
  (signupIssues f).isEmpty

end SignupForm

/-! ## The submit handlers

`handleSubmit` of each form is asynchronous UI code; we model it by the
sequence of observable events it emits after the synchronous validation
check: the `setIsLoading` and `setError` state updates, the single
`clientFetch.post`, and the `router.push` redirect.  The network outcome is
a boolean parameter (`true` when the POST resolves, `false` when it
rejects). -/

/-- The body of `POST /auth/login`. -/
structure LoginBody : Type where
  email : String
  password : String
  deriving DecidableEq, Repr

/-- The body of `POST /auth/signup`. -/
structure SignupBody : Type where
  name : String
  email : String
  password : String
  password_confirmation : String
  role_id : Nat
  deriving DecidableEq, Repr

/-- A POST payload, one of the two auth bodies. -/
inductive PostTarget : Type
  | login (b : LoginBody)
  | signup (b : SignupBody)
  deriving DecidableEq, Repr

/-- An observable event of a submit handler. -/
inductive Event : Type
  | setLoading (b : Bool)
  | setError (e : Option String)
  | post (url : String) (body : PostTarget)
  | redirect (path : String)
  deriving DecidableEq, Repr

/-- Whether an event is a network POST. -/
def Event.isPost : Event → Bool
  | .post _ _ => true
  | _ => false

/-- The per-form UI state touched by a submit handler: the `isLoading` flag
and the generic error banner. -/
structure UiState : Type where
  isLoading : Bool
  error : Option String
  deriving DecidableEq, Repr

/-- Effect of one event on the UI state. -/
def applyEvent (st : UiState) : Event → UiState
  | .setLoading b => { st with isLoading := b }
  | .setError e => { st with error := e }
  | .post _ _ => st
  | .redirect _ => st

/-- Effect of a sequence of events on the UI state. -/
def applyTrace (st : UiState) (tr : List Event) : UiState :=
  tr.foldl applyEvent st

/-- The submit button is rendered with `disabled={isLoading}`. -/
def submitDisabled (st : UiState) : Bool :=
  st.isLoading

namespace LoginForm

/-- The body the login handler posts: `{ email, password }`. -/
def postBody (f : LoginFormData) : LoginBody :=
  { email := f.email, password := f.password }

/-- `handleSubmit` of the login form: if `validateForm` fails it returns at
once (no events); otherwise it sets loading, clears the banner, posts to
`/auth/login`, then redirects to `/` on success or sets the generic error
message on failure, and finally clears the loading flag. -/
def handleSubmit (f : LoginFormData) (netOk : Bool) : List Event :=
  if validateForm f then
    [Event.setLoading true, Event.setError none,
     Event.post "/auth/login" (PostTarget.login (postBody f))]
    ++ (if netOk then [Event.redirect "/"]
        else [Event.setError (some "Invalid email or password. Please try again.")])
    ++ [Event.setLoading false]
  else []

end LoginForm

namespace SignupForm

/-- The numeric role identifier sent to the backend:
`formData.role === "client" ? 3 : 2`. -/
def roleId (r : Role) : Nat :=
  if r = Role.client then 3 else 2

/-- The body the signup handler posts:
`{ name, email, password, password_confirmation, role_id }`. -/
def postBody (f : SignupFormData) : SignupBody :=
  { name := f.name, email := f.email, password := f.password,
    password_confirmation := f.confirmPassword, role_id := roleId f.role }

/-- `handleSubmit` of the signup form: if `validateForm` fails it returns at
once (no events); otherwise it sets loading, clears the banner, posts to
`/auth/signup`, then redirects to `/` on success or sets the generic error
message on failure, and finally clears the loading flag. -/
def handleSubmit (f : SignupFormData) (netOk : Bool) : List Event :=
  if validateForm f then
    [Event.setLoading true, Event.setError none,
     Event.post "/auth/signup" (PostTarget.signup (postBody f))]
    ++ (if netOk then [Event.redirect "/"]
        else [Event.setError (some "Registration failed. Please try again.")])
    ++ [Event.setLoading false]
  else []

end SignupForm

/-! ## The backend middleware registration (src/backend/bootstrap/app.php) -/

/-- The five middleware classes referenced by the bootstrap file. -/
inductive Mw : Type
  | JwtAuth
  | JwtGuest
  | isAdmin
  | isEmployee
  | isClient
  deriving DecidableEq, Repr

/-- `$middleware->alias([...])`: the alias map registered at bootstrap, in
source order. -/
def middlewareAliases : List (String × Mw) :=
  [("jwt.auth", Mw.JwtAuth),
   ("jwt.guest", Mw.JwtGuest),
   ("admin", Mw.isAdmin),
   ("employee", Mw.isEmployee),
   ("client", Mw.isClient)]

/-- `$middleware->priority([...])`: the priority list registered at
bootstrap, in source order. -/
def middlewarePriority : List Mw :=
  [Mw.JwtAuth, Mw.JwtGuest, Mw.isAdmin, Mw.isEmployee, Mw.isClient]

/-- Modelled from the spec: Laravel's sorting of a route's middleware by the
registered priority list (the framework component is not under src/; the
spec states the priority order "determines evaluation order when multiple
middleware apply to one route").  Of the five registered middleware, those
applied to the route run in priority-list order. -/
def sortByPriority (route : List Mw) : List Mw :=
  middlewarePriority.filter (fun m => route.contains m)

/-- A request, abstracted to whether it carries a valid JWT token (token
issuance and validation are not in the provided source). -/
structure Request : Type where
  hasValidToken : Bool
  deriving DecidableEq, Repr

/-- A middleware decision: let the request through or reject it. -/
inductive Decision : Type
  | pass
  | reject
  deriving DecidableEq, Repr

/-- A response: either the middleware rejected the request, or the route
handler produced a result. -/
inductive Response : Type
  | rejected
  | handled
  deriving DecidableEq, Repr

/-- Modelled from the spec: the `JwtAuth` middleware class
(`App\Http\Middleware\JwtAuth`), whose implementation is not under src/
(only its registration in bootstrap/app.php is).  Per the spec, a route
guarded by `jwt.auth` rejects requests without a valid token and admits the
rest. -/
def jwtAuthCheck (r : Request) : Decision :=
  if r.hasValidToken then Decision.pass else Decision.reject

/-- Modelled from the spec: the `JwtGuest` middleware class
(`App\Http\Middleware\JwtGuest`), whose implementation is not under src/.
Per the spec, a route guarded by `jwt.guest` rejects requests that carry a
valid token and admits the rest. -/
def jwtGuestCheck (r : Request) : Decision :=
  if r.hasValidToken then Decision.reject else Decision.pass

/-- Running a guarded route: the middleware decides first, and the route
handler runs only when it passes. -/
def runGuarded (guard : Request → Decision) (handler : Request → Response)
    (r : Request) : Response :=
  match guard r with
  | Decision.pass => handler r
  | Decision.reject => Response.rejected

/-! ## Helper lemmas -/

/-- Splitting at a character that does not occur returns the whole list. -/
theorem splitOnChar_eq_of_not_mem {c : Char} :
    ∀ {l : List Char}, c ∉ l → splitOnChar c l = [l] := by
  intro l h
  induction l with
  | nil => rfl
  | cons a rest ih =>
    rw [List.mem_cons, not_or] at h
    have h1 : ¬ a = c := fun e => h.1 e.symm
    simp [splitOnChar, ih h.2, h1]

/-- A string without an `@` fails the zod email check. -/
theorem zodEmailCheck_eq_false {s : String} (h : ('@' : Char) ∉ s.data) :
    zodEmailCheck s = false := by
  simp [zodEmailCheck, splitOnChar_eq_of_not_mem h]

/-! ## Claim theorems -/

/-- Claim C1: for every signup form submission that passes validation, the
`role_id` field of the body posted to `/auth/signup` is 3 when the selected
role is client and 2 when it is employee. -/
theorem signup_role_id_mapping (f : SignupFormData) (net : Bool)
    (h : SignupForm.validateForm f = true) :
    Event.post "/auth/signup" (PostTarget.signup (SignupForm.postBody f))
      ∈ SignupForm.handleSubmit f net ∧
    (f.role = Role.client → (SignupForm.postBody f).role_id = 3) ∧
    (f.role = Role.employee → (SignupForm.postBody f).role_id = 2) := by
  refine ⟨?_, fun hr => ?_, fun hr => ?_⟩
  · simp [SignupForm.handleSubmit, h]
  · simp [SignupForm.postBody, SignupForm.roleId, hr]
  · simp [SignupForm.postBody, SignupForm.roleId, hr]

/-- Witness for C1 at a concrete validated client signup. -/
theorem signup_role_id_mapping_witness :
    SignupForm.validateForm
      { name := "Jo", email := "jo@ex.com", password := "12345678",
        confirmPassword := "12345678", role := Role.client } = true ∧
    (Event.post "/auth/signup" (PostTarget.signup (SignupForm.postBody
        { name := "Jo", email := "jo@ex.com", password := "12345678",
          confirmPassword := "12345678", role := Role.client }))
      ∈ SignupForm.handleSubmit
        { name := "Jo", email := "jo@ex.com", password := "12345678",
          confirmPassword := "12345678", role := Role.client } true ∧
    ({ name := "Jo", email := "jo@ex.com", password := "12345678",
       confirmPassword := "12345678", role := Role.client } : SignupFormData).role
        = Role.client →
      (SignupForm.postBody
        { name := "Jo", email := "jo@ex.com", password := "12345678",
          confirmPassword := "12345678", role := Role.client }).role_id = 3) := by
  refine ⟨by decide, ?_⟩
  have h := signup_role_id_mapping
    { name := "Jo", email := "jo@ex.com", password := "12345678",
      confirmPassword := "12345678", role := Role.client } true (by decide)
  exact fun _ => h.2.1 rfl

/-- Claim C2: whenever the signup form's password and confirmPassword
differ, `validateForm` returns false and the recorded validation error on
the confirmPassword field is the "Passwords do not match" message. -/
theorem signup_password_mismatch_fails (f : SignupFormData)
    (h : f.password ≠ f.confirmPassword) :
    SignupForm.validateForm f = false ∧
    errorFor (SignupForm.signupIssues f) SignupField.confirmPassword =
      some "Passwords do not match" := by
  unfold SignupForm.validateForm SignupForm.signupIssues
  rw [if_neg h]
  by_cases h1 : f.name.length < 2 <;> by_cases h2 : zodEmailCheck f.email <;>
    by_cases h3 : f.password.length < 8 <;> simp [h1, h2, h3, errorFor]

/-- Witness for C2 at a concrete mismatched signup form. -/
theorem signup_password_mismatch_fails_witness :
    (("12345678" : String) ≠ "87654321") ∧
    (SignupForm.validateForm
       { name := "Jo", email := "jo@ex.com", password := "12345678",
         confirmPassword := "87654321", role := Role.client } = false ∧
     errorFor (SignupForm.signupIssues
         { name := "Jo", email := "jo@ex.com", password := "12345678",
           confirmPassword := "87654321", role := Role.client })
       SignupField.confirmPassword = some "Passwords do not match") :=
  ⟨by decide,
   signup_password_mismatch_fails
     { name := "Jo", email := "jo@ex.com", password := "12345678",
       confirmPassword := "87654321", role := Role.client } (by decide)⟩

/-- Claim C3: whenever the login form's email contains no `@`, the zod email
check fails, so `validateForm` returns false and the recorded validation
error on the email field is the email-format message. -/
theorem login_email_without_at_fails (f : LoginFormData)
    (h : ('@' : Char) ∉ f.email.data) :
    LoginForm.validateForm f = false ∧
    errorFor (LoginForm.loginIssues f) LoginField.email =
      some "Please enter a valid email address" := by
  have he : zodEmailCheck f.email = false := zodEmailCheck_eq_false h
  unfold LoginForm.validateForm LoginForm.loginIssues
  rw [he]
  by_cases hp : f.password.length < 8 <;> simp [hp, errorFor]

/-- Witness for C3 at a concrete login form whose email has no `@`. -/
theorem login_email_without_at_fails_witness :
    (('@' : Char) ∉ (("abc" : String)).data) ∧
    (LoginForm.validateForm { email := "abc", password := "12345678" } = false ∧
     errorFor (LoginForm.loginIssues { email := "abc", password := "12345678" })
       LoginField.email = some "Please enter a valid email address") :=
  ⟨by decide,
   login_email_without_at_fails { email := "abc", password := "12345678" } (by decide)⟩

/-- Claim C10: a signup form whose name is shorter than 2 characters fails
validation with the name-length message recorded on the name field, whatever
the other fields hold. -/
theorem signup_short_name_fails (f : SignupFormData) (h : f.name.length < 2) :
    SignupForm.validateForm f = false ∧
    errorFor (SignupForm.signupIssues f) SignupField.name =
      some "Name must be at least 2 characters" := by
  unfold SignupForm.validateForm SignupForm.signupIssues
  rw [if_pos h]
  split_ifs <;> simp [errorFor]

/-- Witness for C10 at a concrete signup form with a one-character name and
all other fields valid. -/
theorem signup_short_name_fails_witness :
    (("J" : String)).length < 2 ∧
    (SignupForm.validateForm
       { name := "J", email := "jo@ex.com", password := "12345678",
         confirmPassword := "12345678", role := Role.employee } = false ∧
     errorFor (SignupForm.signupIssues
         { name := "J", email := "jo@ex.com", password := "12345678",
           confirmPassword := "12345678", role := Role.employee })
       SignupField.name = some "Name must be at least 2 characters") :=
  ⟨by decide,
   signup_short_name_fails
     { name := "J", email := "jo@ex.com", password := "12345678",
       confirmPassword := "12345678", role := Role.employee } (by decide)⟩

/-- Claim C4: a submission (login or signup) that fails the client-side
schema check emits no event at all: no network POST occurs, and the
`isLoading` flag and the generic error banner are left unchanged. -/
theorem invalid_submit_no_post (fl : LoginFormData) (fs : SignupFormData)
    (st : UiState) (nl ns : Bool)
    (hl : LoginForm.validateForm fl = false)
    (hs : SignupForm.validateForm fs = false) :
    ((LoginForm.handleSubmit fl nl).all (fun e => !(e.isPost)) = true ∧
     applyTrace st (LoginForm.handleSubmit fl nl) = st) ∧
    ((SignupForm.handleSubmit fs ns).all (fun e => !(e.isPost)) = true ∧
     applyTrace st (SignupForm.handleSubmit fs ns) = st) := by
  simp [LoginForm.handleSubmit, SignupForm.handleSubmit, hl, hs, applyTrace]

/-- Witness for C4 at concrete invalid forms. -/
theorem invalid_submit_no_post_witness :
    LoginForm.validateForm { email := "abc", password := "12345678" } = false ∧
    SignupForm.validateForm
      { name := "Jo", email := "jo@ex.com", password := "12345678",
        confirmPassword := "999", role := Role.client } = false ∧
    (((LoginForm.handleSubmit { email := "abc", password := "12345678" } true).all
        (fun e => !(e.isPost)) = true ∧
      applyTrace { isLoading := false, error := none }
        (LoginForm.handleSubmit { email := "abc", password := "12345678" } true) =
        { isLoading := false, error := none }) ∧
     ((SignupForm.handleSubmit
         { name := "Jo", email := "jo@ex.com", password := "12345678",
           confirmPassword := "999", role := Role.client } true).all
        (fun e => !(e.isPost)) = true ∧
      applyTrace { isLoading := false, error := none }
        (SignupForm.handleSubmit
          { name := "Jo", email := "jo@ex.com", password := "12345678",
            confirmPassword := "999", role := Role.client } true) =
        { isLoading := false, error := none })) :=
  ⟨by decide, by decide,
   invalid_submit_no_post { email := "abc", password := "12345678" }
     { name := "Jo", email := "jo@ex.com", password := "12345678",
       confirmPassword := "999", role := Role.client }
     { isLoading := false, error := none } true true (by decide) (by decide)⟩

/-- Claim C5: on a validated submission, a successful POST leads to a
redirect to the home path, and a failed POST sets the generic error banner
(the error state becomes some message) and emits no redirect. -/
theorem validated_submit_outcome (fl : LoginFormData) (fs : SignupFormData)
    (st : UiState)
    (hl : LoginForm.validateForm fl = true)
    (hs : SignupForm.validateForm fs = true) :
    (Event.redirect "/" ∈ LoginForm.handleSubmit fl true ∧
     (applyTrace st (LoginForm.handleSubmit fl false)).error =
       some "Invalid email or password. Please try again." ∧
     ∀ p, Event.redirect p ∉ LoginForm.handleSubmit fl false) ∧
    (Event.redirect "/" ∈ SignupForm.handleSubmit fs true ∧
     (applyTrace st (SignupForm.handleSubmit fs false)).error =
       some "Registration failed. Please try again." ∧
     ∀ p, Event.redirect p ∉ SignupForm.handleSubmit fs false) := by
  simp [LoginForm.handleSubmit, SignupForm.handleSubmit, hl, hs,
    applyTrace, applyEvent]

/-- Witness for C5 at concrete validated forms. -/
theorem validated_submit_outcome_witness :
    LoginForm.validateForm { email := "al@ex.com", password := "abcdefgh" } = true ∧
    SignupForm.validateForm
      { name := "Ana", email := "ana@ex.com", password := "abcdefgh",
        confirmPassword := "abcdefgh", role := Role.employee } = true ∧
    ((Event.redirect "/" ∈
        LoginForm.handleSubmit { email := "al@ex.com", password := "abcdefgh" } true ∧
      (applyTrace { isLoading := false, error := none }
        (LoginForm.handleSubmit { email := "al@ex.com", password := "abcdefgh" } false)).error =
        some "Invalid email or password. Please try again." ∧
      ∀ p, Event.redirect p ∉
        LoginForm.handleSubmit { email := "al@ex.com", password := "abcdefgh" } false) ∧
     (Event.redirect "/" ∈
        SignupForm.handleSubmit
          { name := "Ana", email := "ana@ex.com", password := "abcdefgh",
            confirmPassword := "abcdefgh", role := Role.employee } true ∧
      (applyTrace { isLoading := false, error := none }
        (SignupForm.handleSubmit
          { name := "Ana", email := "ana@ex.com", password := "abcdefgh",
            confirmPassword := "abcdefgh", role := Role.employee } false)).error =
        some "Registration failed. Please try again." ∧
      ∀ p, Event.redirect p ∉
        SignupForm.handleSubmit
          { name := "Ana", email := "ana@ex.com", password := "abcdefgh",
            confirmPassword := "abcdefgh", role := Role.employee } false)) :=
  ⟨by decide, by decide,
   validated_submit_outcome { email := "al@ex.com", password := "abcdefgh" }
     { name := "Ana", email := "ana@ex.com", password := "abcdefgh",
       confirmPassword := "abcdefgh", role := Role.employee }
     { isLoading := false, error := none } (by decide) (by decide)⟩

/-- Claim C6: on a validated submission, the emitted trace starts by setting
the loading flag (which disables the submit button) and ends by clearing it:
at every point strictly inside the trace the button is disabled, and after
the trace completes — whether the POST succeeded or failed — `isLoading` is
false again.  This holds for both forms. -/
theorem single_inflight_loading (fl : LoginFormData) (fs : SignupFormData)
    (st : UiState) (nl ns : Bool)
    (hl : LoginForm.validateForm fl = true)
    (hs : SignupForm.validateForm fs = true) :
    ((LoginForm.handleSubmit fl nl).head? = some (Event.setLoading true) ∧
     (LoginForm.handleSubmit fl nl).getLast? = some (Event.setLoading false) ∧
     (applyTrace st (LoginForm.handleSubmit fl nl)).isLoading = false ∧
     ∀ i, 0 < i → i < (LoginForm.handleSubmit fl nl).length →
       submitDisabled (applyTrace st ((LoginForm.handleSubmit fl nl).take i)) = true) ∧
    ((SignupForm.handleSubmit fs ns).head? = some (Event.setLoading true) ∧
     (SignupForm.handleSubmit fs ns).getLast? = some (Event.setLoading false) ∧
     (applyTrace st (SignupForm.handleSubmit fs ns)).isLoading = false ∧
     ∀ i, 0 < i → i < (SignupForm.handleSubmit fs ns).length →
       submitDisabled (applyTrace st ((SignupForm.handleSubmit fs ns).take i)) = true) := by
  constructor
  · rw [show LoginForm.handleSubmit fl nl =
        [Event.setLoading true, Event.setError none,
         Event.post "/auth/login" (PostTarget.login (LoginForm.postBody fl))]
        ++ (if nl then [Event.redirect "/"]
            else [Event.setError (some "Invalid email or password. Please try again.")])
        ++ [Event.setLoading false] from by rw [LoginForm.handleSubmit, if_pos hl]]
    cases nl <;>
      refine ⟨rfl, rfl, rfl, ?_⟩ <;>
      · intro i h1 h2
        have h5 : i < 5 := by simpa using h2
        interval_cases i <;> rfl
  · rw [show SignupForm.handleSubmit fs ns =
        [Event.setLoading true, Event.setError none,
         Event.post "/auth/signup" (PostTarget.signup (SignupForm.postBody fs))]
        ++ (if ns then [Event.redirect "/"]
            else [Event.setError (some "Registration failed. Please try again.")])
        ++ [Event.setLoading false] from by rw [SignupForm.handleSubmit, if_pos hs]]
    cases ns <;>
      refine ⟨rfl, rfl, rfl, ?_⟩ <;>
      · intro i h1 h2
        have h5 : i < 5 := by simpa using h2
        interval_cases i <;> rfl

/-- Witness for C6 at concrete validated forms, one successful request and
one failed request. -/
theorem single_inflight_loading_witness :
    LoginForm.validateForm { email := "al@ex.com", password := "hunter1234" } = true ∧
    SignupForm.validateForm
      { name := "Bo", email := "bo@ex.com", password := "hunter1234",
        confirmPassword := "hunter1234", role := Role.client } = true ∧
    (((LoginForm.handleSubmit { email := "al@ex.com", password := "hunter1234" } true).head? =
        some (Event.setLoading true) ∧
      (LoginForm.handleSubmit { email := "al@ex.com", password := "hunter1234" } true).getLast? =
        some (Event.setLoading false) ∧
      (applyTrace { isLoading := false, error := none }
        (LoginForm.handleSubmit { email := "al@ex.com", password := "hunter1234" } true)).isLoading =
        false ∧
      ∀ i, 0 < i →
        i < (LoginForm.handleSubmit { email := "al@ex.com", password := "hunter1234" } true).length →
        submitDisabled (applyTrace { isLoading := false, error := none }
          ((LoginForm.handleSubmit { email := "al@ex.com", password := "hunter1234" } true).take i)) =
          true) ∧
     ((SignupForm.handleSubmit
        { name := "Bo", email := "bo@ex.com", password := "hunter1234",
          confirmPassword := "hunter1234", role := Role.client } false).head? =
        some (Event.setLoading true) ∧
      (SignupForm.handleSubmit
        { name := "Bo", email := "bo@ex.com", password := "hunter1234",
          confirmPassword := "hunter1234", role := Role.client } false).getLast? =
        some (Event.setLoading false) ∧
      (applyTrace { isLoading := false, error := none }
        (SignupForm.handleSubmit
          { name := "Bo", email := "bo@ex.com", password := "hunter1234",
            confirmPassword := "hunter1234", role := Role.client } false)).isLoading = false ∧
      ∀ i, 0 < i →
        i < (SignupForm.handleSubmit
          { name := "Bo", email := "bo@ex.com", password := "hunter1234",
            confirmPassword := "hunter1234", role := Role.client } false).length →
        submitDisabled (applyTrace { isLoading := false, error := none }
          ((SignupForm.handleSubmit
            { name := "Bo", email := "bo@ex.com", password := "hunter1234",
              confirmPassword := "hunter1234", role := Role.client } false).take i)) = true)) :=
  ⟨by decide, by decide,
   single_inflight_loading { email := "al@ex.com", password := "hunter1234" }
     { name := "Bo", email := "bo@ex.com", password := "hunter1234",
       confirmPassword := "hunter1234", role := Role.client }
     { isLoading := false, error := none } true false (by decide) (by decide)⟩

/-- Claim C7: the registered middleware priority list is exactly JwtAuth,
JwtGuest, isAdmin, isEmployee, isClient, in that order, and the middleware
of any route that appear in the list are evaluated as a sublist of it, hence
in that order. -/
theorem middleware_priority_order :
    middlewarePriority = [Mw.JwtAuth, Mw.JwtGuest, Mw.isAdmin, Mw.isEmployee, Mw.isClient] ∧
    ∀ route : List Mw, List.Sublist (sortByPriority route) middlewarePriority :=
  ⟨rfl, fun _ => List.filter_sublist _⟩

/-- Claim C8: the registered alias map binds exactly the five names
jwt.auth, jwt.guest, admin, employee, client, in that order, and each name
resolves to the corresponding middleware class. -/
theorem middleware_alias_map :
    middlewareAliases.map Prod.fst = ["jwt.auth", "jwt.guest", "admin", "employee", "client"] ∧
    List.lookup "jwt.auth" middlewareAliases = some Mw.JwtAuth ∧
    List.lookup "jwt.guest" middlewareAliases = some Mw.JwtGuest ∧
    List.lookup "admin" middlewareAliases = some Mw.isAdmin ∧
    List.lookup "employee" middlewareAliases = some Mw.isEmployee ∧
    List.lookup "client" middlewareAliases = some Mw.isClient := by
  refine ⟨rfl, ?_, ?_, ?_, ?_, ?_⟩ <;> rfl

/-- Claim C9: a route guarded by jwt.auth answers rejected — for every
possible route handler, so before the handler can run — on every request
without a valid token, and a route guarded by jwt.guest likewise rejects
every request that carries a valid token. -/
theorem jwt_guard_rejections (r : Request) (handler : Request → Response) :
    (r.hasValidToken = false → runGuarded jwtAuthCheck handler r = Response.rejected) ∧
    (r.hasValidToken = true → runGuarded jwtGuestCheck handler r = Response.rejected) := by
  constructor <;> intro h <;> simp [runGuarded, jwtAuthCheck, jwtGuestCheck, h]

/-- Witness for C9 at concrete requests, with a handler that would answer
if it were reached. -/
theorem jwt_guard_rejections_witness :
    ((Request.mk false).hasValidToken = false ∧
     runGuarded jwtAuthCheck (fun _ => Response.handled) (Request.mk false) =
       Response.rejected) ∧
    ((Request.mk true).hasValidToken = true ∧
     runGuarded jwtGuestCheck (fun _ => Response.handled) (Request.mk true) =
       Response.rejected) :=
  ⟨⟨rfl, (jwt_guard_rejections (Request.mk false) (fun _ => Response.handled)).1 rfl⟩,
   ⟨rfl, (jwt_guard_rejections (Request.mk true) (fun _ => Response.handled)).2 rfl⟩⟩
